import Mathlib

set_option maxRecDepth 8000

set_option allowUnsafeReducibility true

attribute [local semireducible] Rat.add Rat.mul Rat.sub Rat.div Rat.inv Rat.neg

/- Verification of the ict-based-trader analytical core: a shallow embedding of
the pattern detectors (ict_strategies.py), the context analyzers
(ict_advanced.py) and the confluence aggregator plus backtest evaluator
(signal_generator.py), together with theorems settling the specification
claims. Prices and volumes are exact rationals. Divisions whose denominator
can be zero are modelled by `PFloat`, which records the IEEE outcomes
inf / -inf / nan that the numpy float scalars of the Python code produce
(numpy emits these values instead of raising ZeroDivisionError). Timestamps
are modelled by the EST-localized hour of day, the only timestamp information
the analyzed functions consume. -/

namespace ICT

/-- One OHLCV bar; `hour` is the EST hour of day of the bar's timestamp. -/
structure Bar where
  hour : ℕ
  op : ℚ
  hi : ℚ
  lo : ℚ
  cl : ℚ
  vol : ℚ
deriving DecidableEq, Repr

abbrev Frame := List Bar

def defaultBar : Bar := ⟨0, 0, 0, 0, 0, 0⟩

/-- df.open.iloc[i] (all call sites use in-range indices). -/
def opAt (f : Frame) (i : ℕ) : ℚ := (f.getD i defaultBar).op

def hiAt (f : Frame) (i : ℕ) : ℚ := (f.getD i defaultBar).hi

def loAt (f : Frame) (i : ℕ) : ℚ := (f.getD i defaultBar).lo

def clAt (f : Frame) (i : ℕ) : ℚ := (f.getD i defaultBar).cl

def volAt (f : Frame) (i : ℕ) : ℚ := (f.getD i defaultBar).vol

def hourAt (f : Frame) (i : ℕ) : ℕ := (f.getD i defaultBar).hour

/-- Python slice df.iloc[a:b] for 0 ≤ a (clamping, like pandas). -/
def sliceBars (f : Frame) (a b : ℕ) : List Bar := (f.drop a).take (b - a)

/-- Python slice df.iloc[-n:]: the last n bars (whole frame when n ≥ len). -/
def lastN (f : Frame) (n : ℕ) : List Bar := f.drop (f.length - n)

/-- Python slice l[-n:] on a generic list. -/
def takeLast {α : Type} (l : List α) (n : ℕ) : List α := l.drop (l.length - n)

/-- series.max() (call sites guarantee a nonempty window). -/
def qmaxD : List ℚ → ℚ
  | [] => 0
  | x :: xs => xs.foldl max x

/-- series.min() (call sites guarantee a nonempty window). -/
def qminD : List ℚ → ℚ
  | [] => 0
  | x :: xs => xs.foldl min x

def qsum (l : List ℚ) : ℚ := l.foldl (fun a b => a + b) 0

/-- series.mean() (call sites guarantee a nonempty window). -/
def qmean (l : List ℚ) : ℚ := qsum l / (l.length : ℚ)

/-- Result of a numpy float64 scalar division: finite quotient, or the IEEE
values +inf / -inf / nan when the denominator is zero. -/
inductive PFloat where
  | fin (q : ℚ)
  | inf
  | ninf
  | nan
deriving DecidableEq, Repr

/-- Division a / b of numpy float scalars: b = 0 gives nan when a = 0, and a
signed infinity otherwise; numpy warns but does not raise. -/
def fdiv (a b : ℚ) : PFloat :=
  if b = 0 then
    if a = 0 then .nan else if a > 0 then .inf else .ninf
  else .fin (a / b)

/-- Comparison x > t with IEEE semantics (nan compares false). -/
def PFloat.gtQ : PFloat → ℚ → Bool
  | .fin q, t => decide (q > t)
  | .inf, _ => true
  | .ninf, _ => false
  | .nan, _ => false

/-- Comparison x < t with IEEE semantics (nan compares false). -/
def PFloat.ltQ : PFloat → ℚ → Bool
  | .fin q, t => decide (q < t)
  | .inf, _ => false
  | .ninf, _ => true
  | .nan, _ => false

/-- Comparison x > 0 with IEEE semantics. -/
def PFloat.gtZero : PFloat → Bool
  | .fin q => decide (q > 0)
  | .inf => true
  | .ninf => false
  | .nan => false

/-- abs(x) on floats. -/
def PFloat.pabs : PFloat → PFloat
  | .fin q => .fin |q|
  | .inf => .inf
  | .ninf => .inf
  | .nan => .nan

/-- 1.0 - x on floats. -/
def PFloat.oneSub : PFloat → PFloat
  | .fin q => .fin (1 - q)
  | .inf => .ninf
  | .ninf => .inf
  | .nan => .nan

/-- x * k on floats, for a positive rational constant k (the code only scales
by 100). -/
def PFloat.mulPos : PFloat → ℚ → PFloat
  | .fin q, k => .fin (q * k)
  | .inf, _ => .inf
  | .ninf, _ => .ninf
  | .nan, _ => .nan

/-- Python int(q) for a float value: truncation toward zero. -/
def pyInt (q : ℚ) : ℤ := Int.tdiv q.num (q.den : ℤ)

inductive Polarity where
  | bullish
  | bearish
deriving DecidableEq, Repr

/- ===================== ict_strategies.py ===================== -/

/-- One record produced by detect_order_blocks. -/
structure OrderBlock where
  side : Polarity
  start_idx : ℕ
  end_idx : ℕ
  obHigh : ℚ
  obLow : ℚ
  strength : PFloat
deriving DecidableEq, Repr

/-- displacement = abs(close[i]-close[i-1]) / close[i-1] in detect_order_blocks. -/
def obDisplacement (f : Frame) (i : ℕ) : PFloat :=
  fdiv (|clAt f i - clAt f (i - 1)|) (clAt f (i - 1))

/-- The indices visited by python range(i-1, max(i-lookback, 0), -1):
i-1 down to (i-lookback)+1 (ℕ subtraction already clamps at 0). -/
def scanIdxs (i lookback : ℕ) : List ℕ :=
  (List.range' (i - lookback + 1) (i - 1 - (i - lookback))).reverse

/-- Order-block candidate produced at displacement index i (None when the
displacement test fails or no opposite-colored candle is in the window). -/
def obAt (f : Frame) (lookback : ℕ) (threshold : ℚ) (i : ℕ) : Option OrderBlock :=
  if (obDisplacement f i).gtQ threshold then
    if clAt f i > clAt f (i - 1) then
      ((scanIdxs i lookback).find? (fun j => decide (clAt f j < opAt f j))).map
        (fun j => { side := .bullish, start_idx := j, end_idx := i,
                    obHigh := hiAt f j, obLow := loAt f j, strength := obDisplacement f i })
    else if clAt f i < clAt f (i - 1) then
      ((scanIdxs i lookback).find? (fun j => decide (clAt f j > opAt f j))).map
        (fun j => { side := .bearish, start_idx := j, end_idx := i,
                    obHigh := hiAt f j, obLow := loAt f j, strength := obDisplacement f i })
    else none
  else none

/-- detect_order_blocks(df, lookback, displacement_threshold). -/
def detect_order_blocks (f : Frame) (lookback : ℕ) (threshold : ℚ) : List OrderBlock :=
  (List.range' lookback (f.length - lookback)).filterMap (obAt f lookback threshold)

/-- One record produced by detect_fair_value_gaps. -/
structure FVG where
  side : Polarity
  start_idx : ℕ
  end_idx : ℕ
  gap_high : ℚ
  gap_low : ℚ
deriving DecidableEq, Repr

def fvgAt (f : Frame) (i : ℕ) : Option FVG :=
  if loAt f i > hiAt f (i - 2) then
    some { side := .bullish, start_idx := i - 2, end_idx := i,
           gap_high := loAt f i, gap_low := hiAt f (i - 2) }
  else if hiAt f i < loAt f (i - 2) then
    some { side := .bearish, start_idx := i - 2, end_idx := i,
           gap_high := loAt f (i - 2), gap_low := hiAt f i }
  else none

/-- detect_fair_value_gaps(df). -/
def detect_fair_value_gaps (f : Frame) : List FVG :=
  (List.range' 2 (f.length - 2)).filterMap (fvgAt f)

/-- One record produced by detect_liquidity_sweeps; isHigh distinguishes the
high_sweep / low_sweep type tags. -/
structure Sweep where
  isHigh : Bool
  idx : ℕ
  price : ℚ
  reversal : Polarity
deriving DecidableEq, Repr

def sweepsAt (f : Frame) (lookback : ℕ) (threshold : ℚ) (i : ℕ) : List Sweep :=
  let recent_high := qmaxD ((sliceBars f (i - lookback) i).map Bar.hi)
  let recent_low := qminD ((sliceBars f (i - lookback) i).map Bar.lo)
  (if hiAt f i > recent_high * (1 + threshold) ∧ clAt f (i + 1) < clAt f i then
     [{ isHigh := true, idx := i, price := hiAt f i, reversal := .bearish }]
   else []) ++
  (if loAt f i < recent_low * (1 - threshold) ∧ clAt f (i + 1) > clAt f i then
     [{ isHigh := false, idx := i, price := loAt f i, reversal := .bullish }]
   else [])

/-- detect_liquidity_sweeps(df, lookback, sweep_threshold); the loop stops one
bar before the end because it reads the next close. -/
def detect_liquidity_sweeps (f : Frame) (lookback : ℕ) (threshold : ℚ) : List Sweep :=
  ((List.range' lookback (f.length - 1 - lookback)).map (sweepsAt f lookback threshold)).flatten

structure SwingPt where
  idx : ℕ
  price : ℚ
deriving DecidableEq, Repr

/-- Swing highs: bar i whose high equals the max of the symmetric window
iloc[i-swing_length : i+swing_length+1], for i in range(swing_length, upper). -/
def swingHighs (f : Frame) (swing_length upper : ℕ) : List SwingPt :=
  (List.range' swing_length (upper - swing_length)).filterMap (fun i =>
    if hiAt f i = qmaxD ((sliceBars f (i - swing_length) (i + swing_length + 1)).map Bar.hi)
    then some ⟨i, hiAt f i⟩ else none)

def swingLows (f : Frame) (swing_length upper : ℕ) : List SwingPt :=
  (List.range' swing_length (upper - swing_length)).filterMap (fun i =>
    if loAt f i = qminD ((sliceBars f (i - swing_length) (i + swing_length + 1)).map Bar.lo)
    then some ⟨i, loAt f i⟩ else none)

/-- One record produced by detect_market_structure_shift (all have type 'bos'). -/
structure StructureShift where
  direction : Polarity
  idx : ℕ
  price : ℚ
  broken_level : ℚ
deriving DecidableEq, Repr

/-- detect_market_structure_shift(df, swing_length): for every bar, the first
swing high (in detection order) lying strictly before it that its close
exceeds gives a bullish BOS; symmetric for swing lows. -/
def detect_market_structure_shift (f : Frame) (swing_length : ℕ) : List StructureShift :=
  let shs := swingHighs f swing_length (f.length - swing_length)
  let sls := swingLows f swing_length (f.length - swing_length)
  ((List.range f.length).map (fun i =>
    (match shs.find? (fun sh => decide (sh.idx < i) && decide (clAt f i > sh.price)) with
     | some sh => [({ direction := .bullish, idx := i, price := clAt f i,
                      broken_level := sh.price } : StructureShift)]
     | none => []) ++
    (match sls.find? (fun sl => decide (sl.idx < i) && decide (clAt f i < sl.price)) with
     | some sl => [({ direction := .bearish, idx := i, price := clAt f i,
                      broken_level := sl.price } : StructureShift)]
     | none => []))).flatten

/-- calculate_ote_levels(high, low): the four keys 62% / 70.5% / 79% / 50%. -/
structure Ote where
  l62 : ℚ
  l705 : ℚ
  l79 : ℚ
  l50 : ℚ
deriving DecidableEq, Repr

def calculate_ote_levels (high low : ℚ) : Ote :=
  { l62 := low + (high - low) * (62 / 100),
    l705 := low + (high - low) * (705 / 1000),
    l79 := low + (high - low) * (79 / 100),
    l50 := low + (high - low) * (50 / 100) }

/-- One record produced by detect_displacement. -/
structure Displacement where
  side : Polarity
  idx : ℕ
  magnitude : PFloat
  strength : PFloat
deriving DecidableEq, Repr

/-- detect_displacement(df, lookback, threshold). -/
def detect_displacement (f : Frame) (lookback : ℕ) (threshold : ℚ) : List Displacement :=
  (List.range' lookback (f.length - lookback)).filterMap (fun i =>
    let avg_range := qmean ((sliceBars f (i - lookback) i).map (fun b => b.hi - b.lo))
    let curr_range := hiAt f i - loAt f i
    let body_size := |clAt f i - opAt f i|
    if decide (curr_range > avg_range * (3 / 2)) && (fdiv body_size curr_range).gtQ (7 / 10) then
      let price_change := fdiv (clAt f i - clAt f (i - 1)) (clAt f (i - 1))
      if price_change.pabs.gtQ threshold then
        some { side := if price_change.gtZero then .bullish else .bearish,
               idx := i, magnitude := price_change, strength := fdiv body_size avg_range }
      else none
    else none)

/-- Detector outputs consumed by the aggregator; detect_bpr and
detect_volume_imbalance are also computed by get_all_ict_indicators in the
source but their results are never read by generate_signal (and detect_bpr
takes a standard deviation, an irrational quantity), so they are not
embedded. -/
structure Indicators where
  order_blocks : List OrderBlock
  fair_value_gaps : List FVG
  liquidity_sweeps : List Sweep
  market_structure : List StructureShift
  displacements : List Displacement
deriving DecidableEq, Repr

/-- get_all_ict_indicators(df), with the source defaults of each detector. -/
def get_all_ict_indicators (f : Frame) : Indicators :=
  { order_blocks := detect_order_blocks f 20 (15 / 1000),
    fair_value_gaps := detect_fair_value_gaps f,
    liquidity_sweeps := detect_liquidity_sweeps f 50 (1 / 1000),
    market_structure := detect_market_structure_shift f 5,
    displacements := detect_displacement f 10 (2 / 100) }

/- ===================== ict_advanced.py ===================== -/

inductive KZName where
  | LONDON_KILLZONE
  | NEW_YORK_AM
  | NEW_YORK_PM
  | ASIAN_SESSION
  | OUTSIDE
deriving DecidableEq, Repr

/-- is_in_kill_zone(timestamp, return_zone=True) as a function of the EST
hour; the KILL_ZONES dict is scanned in insertion order and the weights come
from KILL_ZONE_WEIGHTS. -/
def is_in_kill_zone (hour : ℕ) : Bool × KZName × ℚ :=
  if 2 ≤ hour ∧ hour < 5 then (true, .LONDON_KILLZONE, 9 / 10)
  else if 7 ≤ hour ∧ hour < 10 then (true, .NEW_YORK_AM, 1)
  else if 13 ≤ hour ∧ hour < 16 then (true, .NEW_YORK_PM, 17 / 20)
  else if 20 ≤ hour ∧ hour < 24 then (true, .ASIAN_SESSION, 7 / 10)
  else (false, .OUTSIDE, 3 / 5)

/-- One record produced by detect_choch. -/
structure Choch where
  direction : Polarity
  idx : ℕ
  price : ℚ
  broken_level : ℚ
  strength : PFloat
deriving DecidableEq, Repr

/-- Body of the detect_choch main loop at index i. The sl-independent tests
(volume decay, momentum, 2-bar lookahead, next-bar reversal) are shared by all
swing candidates, so the python loop appends at the first swing point passing
the index and break conditions iff those shared tests pass. -/
def chochAt (f : Frame) (lookback : ℕ) (sls shs : List SwingPt) (i : ℕ) : List Choch :=
  if 5 ≤ i then
    let recent_volume := qmean ((sliceBars f (i - 5) i).map Bar.vol)
    let volume_decreasing := decide (volAt f i < recent_volume * (4 / 5))
    let price_momentum := fdiv (|clAt f i - clAt f (i - 3)|) (clAt f (i - 3))
    let strength := price_momentum.oneSub
    let okShared := (volume_decreasing || price_momentum.ltQ (1 / 100))
    (match sls.find? (fun sl => decide (sl.idx < i - 5) && decide (sl.idx > i - lookback)
        && decide (clAt f i < sl.price)) with
     | some sl =>
        if okShared && decide (i < f.length - 2) && decide (clAt f (i + 1) > clAt f i) then
          [({ direction := .bullish, idx := i, price := clAt f i,
              broken_level := sl.price, strength := strength } : Choch)]
        else []
     | none => []) ++
    (match shs.find? (fun sh => decide (sh.idx < i - 5) && decide (sh.idx > i - lookback)
        && decide (clAt f i > sh.price)) with
     | some sh =>
        if okShared && decide (i < f.length - 2) && decide (clAt f (i + 1) < clAt f i) then
          [({ direction := .bearish, idx := i, price := clAt f i,
              broken_level := sh.price, strength := strength } : Choch)]
        else []
     | none => [])
  else []

/-- detect_choch(df, swing_length, lookback): swing points are detected over
range(swing_length, min(len-swing_length, lookback)) and breaks scanned over
range(lookback, len). -/
def detect_choch (f : Frame) (swing_length lookback : ℕ) : List Choch :=
  let upper := min (f.length - swing_length) lookback
  let shs := swingHighs f swing_length upper
  let sls := swingLows f swing_length upper
  ((List.range' lookback (f.length - lookback)).map (chochAt f lookback sls shs)).flatten

inductive PDKind where
  | PREMIUM
  | DISCOUNT
deriving DecidableEq, Repr

inductive PDDetailed where
  | EXTREME_PREMIUM
  | PREMIUM
  | DISCOUNT
  | EXTREME_DISCOUNT
deriving DecidableEq, Repr

structure PDZoneInfo where
  zone : PDKind
  detailed_zone : PDDetailed
  range_high : ℚ
  range_low : ℚ
  midpoint : ℚ
  price_position : ℚ
  current_price : ℚ
deriving DecidableEq, Repr

/-- calculate_premium_discount_zone(df, lookback); a degenerate range
(high == low) defaults the position to 0.5 as in the source. -/
def calculate_premium_discount_zone (f : Frame) (lookback : ℕ) : PDZoneInfo :=
  let recent_high := qmaxD ((lastN f lookback).map Bar.hi)
  let recent_low := qminD ((lastN f lookback).map Bar.lo)
  let midpoint := (recent_high + recent_low) / 2
  let current_price := clAt f (f.length - 1)
  let price_position :=
    if recent_high ≠ recent_low then (current_price - recent_low) / (recent_high - recent_low)
    else 1 / 2
  { zone := if price_position > 1 / 2 then .PREMIUM else .DISCOUNT,
    detailed_zone :=
      if price_position > 7 / 10 then .EXTREME_PREMIUM
      else if price_position > 1 / 2 then .PREMIUM
      else if price_position < 3 / 10 then .EXTREME_DISCOUNT
      else .DISCOUNT,
    range_high := recent_high, range_low := recent_low, midpoint := midpoint,
    price_position := price_position, current_price := current_price }

inductive P3Phase where
  | ACCUMULATION
  | MANIPULATION
  | DISTRIBUTION
  | AFTER_HOURS
deriving DecidableEq, Repr

/-- get_power_of_3_phase(timestamp) as a function of the EST hour (the phase
tag; description and recommendation strings are fixed functions of it). -/
def get_power_of_3_phase (hour : ℕ) : P3Phase :=
  if hour < 8 then .ACCUMULATION
  else if hour < 11 then .MANIPULATION
  else if hour < 16 then .DISTRIBUTION
  else .AFTER_HOURS

/-- Running high/low of one session ('swept' stays False in the source and is
omitted). -/
structure Levels where
  shigh : Option ℚ
  slow : Option ℚ
deriving DecidableEq, Repr

structure SessionLevels where
  asian : Levels
  london : Levels
  newyork : Levels
deriving DecidableEq, Repr

def updLevels (lv : Levels) (price_high price_low : ℚ) : Levels :=
  { shigh := match lv.shigh with
      | none => some price_high
      | some x => if price_high > x then some price_high else some x,
    slow := match lv.slow with
      | none => some price_low
      | some x => if price_low < x then some price_low else some x }

/-- The if/elif chain of detect_session_liquidity for one bar: Asian
(19 ≤ h ≤ 23), then London (2 ≤ h < 10), then New York (7 ≤ h < 16). -/
def sessionStep (st : SessionLevels) (b : Bar) : SessionLevels :=
  if 19 ≤ b.hour ∧ b.hour ≤ 23 then { st with asian := updLevels st.asian b.hi b.lo }
  else if 2 ≤ b.hour ∧ b.hour < 10 then { st with london := updLevels st.london b.hi b.lo }
  else if 7 ≤ b.hour ∧ b.hour < 16 then { st with newyork := updLevels st.newyork b.hi b.lo }
  else st

/-- detect_session_liquidity(df). -/
def detect_session_liquidity (f : Frame) : SessionLevels :=
  f.foldl sessionStep ⟨⟨none, none⟩, ⟨none, none⟩, ⟨none, none⟩⟩

inductive HtfBiasKind where
  | BULLISH
  | BEARISH
  | NEUTRAL
deriving DecidableEq, Repr

/-- Output of get_htf_bias; the reasoning string is a fixed function of the
bias and strength, priceAboveMa models the price_vs_ma key (absent, modelled
false, on the insufficient-data path). -/
structure HTFBias where
  bias : HtfBiasKind
  strength : ℤ
  priceAboveMa : Bool
deriving DecidableEq, Repr

structure HLCounts where
  hh : ℕ
  hl : ℕ
  lh : ℕ
  ll : ℕ
deriving DecidableEq, Repr

def htfCountStep (recent : Frame) (c : HLCounts) (i : ℕ) : HLCounts :=
  let current_high := hiAt recent i
  let previous_high := qmaxD ((sliceBars recent (i - 5) i).map Bar.hi)
  let current_low := loAt recent i
  let previous_low := qminD ((sliceBars recent (i - 5) i).map Bar.lo)
  { hh := c.hh + (if current_high > previous_high then 1 else 0),
    hl := c.hl + (if current_low > previous_low then 1 else 0),
    lh := c.lh + (if current_high < previous_high then 1 else 0),
    ll := c.ll + (if current_low < previous_low then 1 else 0) }

/-- get_htf_bias(df). -/
def get_htf_bias (f : Frame) : HTFBias :=
  if f.length < 20 then { bias := .NEUTRAL, strength := 0, priceAboveMa := false }
  else
    let lookback := min 20 (f.length - 1)
    let recent := lastN f lookback
    let c := (List.range' 5 (recent.length - 5)).foldl (htfCountStep recent) ⟨0, 0, 0, 0⟩
    let bullish_structure := c.hh + c.hl
    let bearish_structure := c.lh + c.ll
    let w := min 20 recent.length
    let ma_20 := qmean ((lastN recent w).map Bar.cl)
    let current_price := clAt recent (recent.length - 1)
    let above := decide (current_price > ma_20)
    if bullish_structure > bearish_structure ∧ above = true then
      { bias := .BULLISH,
        strength := min 100 (pyInt ((bullish_structure : ℚ)
          / ((max (bullish_structure + bearish_structure) 1 : ℕ) : ℚ) * 100)),
        priceAboveMa := above }
    else if bearish_structure > bullish_structure ∧ above = false then
      { bias := .BEARISH,
        strength := min 100 (pyInt ((bearish_structure : ℚ)
          / ((max (bullish_structure + bearish_structure) 1 : ℕ) : ℚ) * 100)),
        priceAboveMa := above }
    else { bias := .NEUTRAL, strength := 50, priceAboveMa := above }

/- ===================== signal_generator.py ===================== -/

inductive Direction where
  | LONG
  | SHORT
  | NEUTRAL
deriving DecidableEq, Repr

/-- Tags for the ordered reasoning trace; each constructor corresponds to one
reasoning.append site of generate_signal and carries the numeric payloads that
the formatted string interpolates (rendering aside, the string is a fixed
function of the tag). -/
inductive Reason where
  | totalConfluence (points : ℚ) (confidence : ℤ)
  | insideKillZone (zone : KZName)
  | primeTimeNote
  | outsideKillZones (weight : ℚ)
  | lowProbabilityNote
  | priceInZone (dz : PDDetailed) (position : ℚ)
  | powerOf3 (phase : P3Phase)
  | htfBiasLine (bias : HtfBiasKind) (strength : ℤ)
  | htfBiasDetail (bias : HtfBiasKind) (strength : ℤ)
  | htfNotAvailable
  | bullishChoch
  | bearishChoch
  | obOteKillZoneBull (zlo zhi : ℚ)
  | obOteBull
  | obBull (zlo zhi : ℚ)
  | obOteKillZoneBear (zlo zhi : ℚ)
  | obOteBear
  | obBear (zlo zhi : ℚ)
  | fvgDiscount (glo ghi : ℚ)
  | fvgBull (glo ghi : ℚ)
  | fvgPremium (glo ghi : ℚ)
  | fvgBear (glo ghi : ℚ)
  | sweepBull (price : ℚ)
  | sweepBear (price : ℚ)
  | bosBull
  | bosBear
  | dispBull (strength : PFloat)
  | dispBear (strength : PFloat)
  | longPremiumPenalty (amount : ℚ)
  | shortDiscountPenalty (amount : ℚ)
  | htfAlignedLong (amount : ℚ)
  | htfAgainstLong (amount : ℚ)
  | htfAlignedShort (amount : ℚ)
  | htfAgainstShort (amount : ℚ)
  | noClearSignal
  | insufficientData
deriving DecidableEq, Repr

/-- The active_zones dict (keys are added only with fresh singleton lists). -/
structure ActiveZones where
  bullish_ob : List OrderBlock
  bearish_ob : List OrderBlock
  bullish_fvg : List FVG
  bearish_fvg : List FVG
deriving DecidableEq, Repr

def emptyZones : ActiveZones := ⟨[], [], [], []⟩

/-- Accumulator of the scoring loop: bullish_points, bearish_points, the
reasoning entries appended by the scoring sections, and active_zones. -/
structure ScAcc where
  bull : ℚ
  bear : ℚ
  rs : List Reason
  zones : ActiveZones
deriving DecidableEq, Repr

/-- check_price_near_zone(current_price, zone_high, zone_low, tolerance). -/
def check_price_near_zone (current_price zone_high zone_low tolerance : ℚ) : Bool :=
  let zone_range := zone_high - zone_low
  let buffer := if zone_range > 0 then zone_range * tolerance else current_price * tolerance
  decide (current_price ≥ zone_low - buffer) && decide (current_price ≤ zone_high + buffer)

/-- Section 4: +10 per recent CHOCH by direction. -/
def chochStep (st : ScAcc) (c : Choch) : ScAcc :=
  match c.direction with
  | .bullish => { st with bull := st.bull + 10, rs := st.rs ++ [.bullishChoch] }
  | .bearish => { st with bear := st.bear + 10, rs := st.rs ++ [.bearishChoch] }

/-- Section 5, bullish half: first of the top-2 recent bullish order blocks
near price scores 12/9/6 depending on OTE and kill-zone confluence. -/
def obBullStep (at_ote in_kz : Bool) (price : ℚ) (obs : List OrderBlock) (st : ScAcc) : ScAcc :=
  match (obs.take 2).find? (fun ob => check_price_near_zone price ob.obHigh ob.obLow (2 / 100)) with
  | some ob =>
      if at_ote && in_kz then
        { st with bull := st.bull + 12, rs := st.rs ++ [.obOteKillZoneBull ob.obLow ob.obHigh],
                  zones := { st.zones with bullish_ob := st.zones.bullish_ob ++ [ob] } }
      else if at_ote then
        { st with bull := st.bull + 9, rs := st.rs ++ [.obOteBull],
                  zones := { st.zones with bullish_ob := st.zones.bullish_ob ++ [ob] } }
      else
        { st with bull := st.bull + 6, rs := st.rs ++ [.obBull ob.obLow ob.obHigh],
                  zones := { st.zones with bullish_ob := st.zones.bullish_ob ++ [ob] } }
  | none => st

def obBearStep (at_ote in_kz : Bool) (price : ℚ) (obs : List OrderBlock) (st : ScAcc) : ScAcc :=
  match (obs.take 2).find? (fun ob => check_price_near_zone price ob.obHigh ob.obLow (2 / 100)) with
  | some ob =>
      if at_ote && in_kz then
        { st with bear := st.bear + 12, rs := st.rs ++ [.obOteKillZoneBear ob.obLow ob.obHigh],
                  zones := { st.zones with bearish_ob := st.zones.bearish_ob ++ [ob] } }
      else if at_ote then
        { st with bear := st.bear + 9, rs := st.rs ++ [.obOteBear],
                  zones := { st.zones with bearish_ob := st.zones.bearish_ob ++ [ob] } }
      else
        { st with bear := st.bear + 6, rs := st.rs ++ [.obBear ob.obLow ob.obHigh],
                  zones := { st.zones with bearish_ob := st.zones.bearish_ob ++ [ob] } }
  | none => st

/-- Section 6, bullish half: first of the top-2 recent bullish FVGs
overlapping price scores 9 in DISCOUNT, else 4. -/
def fvgBullStep (zone : PDKind) (price : ℚ) (fvgs : List FVG) (st : ScAcc) : ScAcc :=
  match (fvgs.take 2).find? (fun g =>
      decide (price < g.gap_high) && decide (price > g.gap_low * (95 / 100))) with
  | some g =>
      if zone = .DISCOUNT then
        { st with bull := st.bull + 9, rs := st.rs ++ [.fvgDiscount g.gap_low g.gap_high],
                  zones := { st.zones with bullish_fvg := st.zones.bullish_fvg ++ [g] } }
      else
        { st with bull := st.bull + 4, rs := st.rs ++ [.fvgBull g.gap_low g.gap_high],
                  zones := { st.zones with bullish_fvg := st.zones.bullish_fvg ++ [g] } }
  | none => st

def fvgBearStep (zone : PDKind) (price : ℚ) (fvgs : List FVG) (st : ScAcc) : ScAcc :=
  match (fvgs.take 2).find? (fun g =>
      decide (price > g.gap_low) && decide (price < g.gap_high * (105 / 100))) with
  | some g =>
      if zone = .PREMIUM then
        { st with bear := st.bear + 9, rs := st.rs ++ [.fvgPremium g.gap_low g.gap_high],
                  zones := { st.zones with bearish_fvg := st.zones.bearish_fvg ++ [g] } }
      else
        { st with bear := st.bear + 4, rs := st.rs ++ [.fvgBear g.gap_low g.gap_high],
                  zones := { st.zones with bearish_fvg := st.zones.bearish_fvg ++ [g] } }
  | none => st

/-- Section 7: +6 per recent liquidity sweep by reversal direction. -/
def sweepStep (st : ScAcc) (sw : Sweep) : ScAcc :=
  match sw.reversal with
  | .bullish => { st with bull := st.bull + 6, rs := st.rs ++ [.sweepBull sw.price] }
  | .bearish => { st with bear := st.bear + 6, rs := st.rs ++ [.sweepBear sw.price] }

/-- Section 8: +4 to the strict majority of recent BOS events. -/
def bosStep (nBull nBear : ℕ) (st : ScAcc) : ScAcc :=
  if nBull > nBear then { st with bull := st.bull + 4, rs := st.rs ++ [.bosBull] }
  else if nBear > nBull then { st with bear := st.bear + 4, rs := st.rs ++ [.bosBear] }
  else st

/-- Section 9: +7 for the most recent displacement by direction. -/
def dispStep (st : ScAcc) (d : Displacement) : ScAcc :=
  match d.side with
  | .bullish => { st with bull := st.bull + 7, rs := st.rs ++ [.dispBull d.strength] }
  | .bearish => { st with bear := st.bear + 7, rs := st.rs ++ [.dispBear d.strength] }

/-- Section 10a: multiply both scores by the kill-zone weight. -/
def kzStep (w : ℚ) (st : ScAcc) : ScAcc :=
  { st with bull := st.bull * w, bear := st.bear * w }

/-- Section 10b: 30% penalty on the bullish score of a long in PREMIUM. -/
def premStep (zone : PDKind) (st : ScAcc) : ScAcc :=
  if zone = .PREMIUM ∧ st.bull > 0 then
    { st with bull := st.bull - st.bull * (3 / 10),
              rs := st.rs ++ [.longPremiumPenalty (st.bull * (3 / 10))] }
  else st

/-- Section 10b: 30% penalty on the bearish score of a short in DISCOUNT. -/
def discStep (zone : PDKind) (st : ScAcc) : ScAcc :=
  if zone = .DISCOUNT ∧ st.bear > 0 then
    { st with bear := st.bear - st.bear * (3 / 10),
              rs := st.rs ++ [.shortDiscountPenalty (st.bear * (3 / 10))] }
  else st

/-- Sections 4-10b of generate_signal: the ordered additive rule table with
the kill-zone weighting and premium/discount penalties applied.  These are
exactly the scores from which the provisional direction of section 10c is
derived. -/
def confluence_phase (df : Frame) (lookback_days : ℕ) : ScAcc :=
  let indicators := get_all_ict_indicators df
  let current_idx := df.length - 1
  let current_price := clAt df current_idx
  let kz := is_in_kill_zone (hourAt df current_idx)
  let pd_zone := calculate_premium_discount_zone df lookback_days
  let zone := pd_zone.zone
  let recent_choch := (detect_choch df 5 50).filter (fun c => decide (current_idx - c.idx ≤ 10))
  let st1 := (takeLast recent_choch 2).foldl chochStep ⟨0, 0, [], emptyZones⟩
  let recent_obs := indicators.order_blocks.filter
    (fun z => decide (current_idx - z.start_idx ≤ lookback_days))
  let bullish_obs := recent_obs.filter (fun ob => decide (ob.side = .bullish))
  let bearish_obs := recent_obs.filter (fun ob => decide (ob.side = .bearish))
  let swing_high := qmaxD ((lastN df lookback_days).map Bar.hi)
  let swing_low := qminD ((lastN df lookback_days).map Bar.lo)
  let ote_levels := calculate_ote_levels swing_high swing_low
  let at_ote := [ote_levels.l62, ote_levels.l705, ote_levels.l79, ote_levels.l50].any
    (fun level => (fdiv (|current_price - level|) current_price).ltQ (15 / 1000))
  let st2 := obBullStep at_ote kz.1 current_price bullish_obs st1
  let st3 := obBearStep at_ote kz.1 current_price bearish_obs st2
  let recent_fvgs := indicators.fair_value_gaps.filter
    (fun z => decide (current_idx - z.start_idx ≤ lookback_days))
  let bullish_fvgs := recent_fvgs.filter (fun g => decide (g.side = .bullish))
  let bearish_fvgs := recent_fvgs.filter (fun g => decide (g.side = .bearish))
  let st4 := fvgBullStep zone current_price bullish_fvgs st3
  let st5 := fvgBearStep zone current_price bearish_fvgs st4
  let recent_sweeps := indicators.liquidity_sweeps.filter
    (fun z => decide (current_idx - z.idx ≤ 15))
  let st6 := (takeLast recent_sweeps 2).foldl sweepStep st5
  let recent_structure := indicators.market_structure.filter
    (fun z => decide (current_idx - z.idx ≤ 30))
  let st7 := bosStep
    ((recent_structure.filter (fun s => decide (s.direction = .bullish))).length)
    ((recent_structure.filter (fun s => decide (s.direction = .bearish))).length) st6
  let recent_disp := indicators.displacements.filter
    (fun z => decide (current_idx - z.idx ≤ 10))
  let st8 := (takeLast recent_disp 1).foldl dispStep st7
  discStep zone (premStep zone (kzStep kz.2.2 st8))

/-- Sections 10c/11 direction rule: LONG when bullish>bearish and bullish≥5,
SHORT when bearish>bullish and bearish≥5, else NEUTRAL; the second component
is signal_points (0 for NEUTRAL). -/
def signalRule (bull bear : ℚ) : Direction × ℚ :=
  if bull > bear ∧ bull ≥ 5 then (.LONG, bull)
  else if bear > bull ∧ bear ≥ 5 then (.SHORT, bear)
  else (.NEUTRAL, 0)

/-- The confidence tiers of generate_signal as written in the source, with
python's int() truncation (pyInt). -/
def confTiers (s : ℚ) : ℤ :=
  if s ≥ 21 then min 100 (80 + pyInt (s - 21))
  else if s ≥ 13 then 60 + pyInt ((s - 13) * (5 / 2))
  else if s ≥ 6 then 30 + pyInt ((s - 6) * 5)
  else min 30 (pyInt (s * 6))

/-- The confidence mapping as the specification states it, with floor; it
agrees with confTiers on the nonnegative scores the aggregator produces. -/
def confTiersSpec (s : ℚ) : ℤ :=
  if s ≥ 21 then min 100 (80 + ⌊s - 21⌋)
  else if s ≥ 13 then 60 + ⌊(s - 13) * (5 / 2)⌋
  else if s ≥ 6 then 30 + ⌊(s - 6) * 5⌋
  else min 30 ⌊s * 6⌋

/-- Section 10c/10d inner case split: a +10% bonus to the provisional
direction's score when the HTF bias is aligned, a −20% penalty when it is
opposed; returns (bullish, bearish, appended reasoning). -/
def htfAdjust (prov : Direction) (bias : HtfBiasKind) (bull bear : ℚ) :
    ℚ × ℚ × List Reason :=
  match prov with
  | .LONG =>
    match bias with
    | .BULLISH => (bull + bull * (1 / 10), bear, [.htfAlignedLong (bull * (1 / 10))])
    | .BEARISH => (bull - bull * (2 / 10), bear, [.htfAgainstLong (bull * (2 / 10))])
    | .NEUTRAL => (bull, bear, [])
  | .SHORT =>
    match bias with
    | .BEARISH => (bull, bear + bear * (1 / 10), [.htfAlignedShort (bear * (1 / 10))])
    | .BULLISH => (bull, bear - bear * (2 / 10), [.htfAgainstShort (bear * (2 / 10))])
    | .NEUTRAL => (bull, bear, [])
  | .NEUTRAL => (bull, bear, [])

/-- Section 10c/10d: the HTF bias adjustment.  The provisional direction is
computed from the pre-adjustment scores and the adjustment is applied to the
provisional direction's score. -/
def adjustedScores (df : Frame) (lookback_days : ℕ) (htf_df : Option Frame) :
    ℚ × ℚ × List Reason :=
  let conf := confluence_phase df lookback_days
  match htf_df with
  | none => (conf.bull, conf.bear, [])
  | some hdf =>
      htfAdjust (signalRule conf.bull conf.bear).1 (get_htf_bias hdf).bias conf.bull conf.bear

/-- The entry_levels dict: anchored at the active order block boundary when
one exists, otherwise at the current price and the lookback swing extremes. -/
def mkEntryLevels (signal : Direction) (zones : ActiveZones)
    (current_price swing_low swing_high : ℚ) : List (String × ℚ) :=
  match signal with
  | .LONG =>
    match zones.bullish_ob with
    | ob :: _ =>
        [("entry", ob.obLow), ("stop_loss", ob.obLow * (98 / 100)),
         ("take_profit1", ob.obLow * (103 / 100)), ("take_profit2", ob.obLow * (105 / 100))]
    | [] =>
        [("entry", current_price), ("stop_loss", swing_low),
         ("take_profit1", current_price * (103 / 100)), ("take_profit2", swing_high)]
  | .SHORT =>
    match zones.bearish_ob with
    | ob :: _ =>
        [("entry", ob.obHigh), ("stop_loss", ob.obHigh * (102 / 100)),
         ("take_profit1", ob.obHigh * (97 / 100)), ("take_profit2", ob.obHigh * (95 / 100))]
    | [] =>
        [("entry", current_price), ("stop_loss", swing_high),
         ("take_profit1", current_price * (97 / 100)), ("take_profit2", swing_low)]
  | .NEUTRAL => []

/-- The returned dict of generate_signal (restricted to the fields the claims
read; all_indicators, kill_zone, premium_discount, power_of_3, htf_bias and
confluence_breakdown are copies of already-embedded values). -/
structure SignalResult where
  signal : Direction
  confidence : ℤ
  reasoning : List Reason
  active_zones : ActiveZones
  entry_levels : List (String × ℚ)
  current_price : ℚ
  ote_levels : Ote
  bullish_score : ℚ
  bearish_score : ℚ
deriving DecidableEq, Repr

/-- Section 11 of generate_signal: final direction and signal_points are
re-derived from the (post-HTF-adjustment) scores, confidence is computed from
signal_points, the no-confluence line is appended for NEUTRAL, and the
summary line is inserted at the head of the reasoning. -/
def assembleResult (bull bear : ℚ) (rs : List Reason) (zones : ActiveZones)
    (current_price swing_low swing_high : ℚ) (ote : Ote) : SignalResult :=
  let sp := signalRule bull bear
  let confidence := confTiers sp.2
  let rs2 := match sp.1 with
    | .NEUTRAL => rs ++ [.noClearSignal]
    | _ => rs
  { signal := sp.1, confidence := confidence,
    reasoning := .totalConfluence sp.2 confidence :: rs2,
    active_zones := zones,
    entry_levels := mkEntryLevels sp.1 zones current_price swing_low swing_high,
    current_price := current_price, ote_levels := ote,
    bullish_score := bull, bearish_score := bear }

/-- generate_signal for a length-valid frame: context reasoning header
(sections 1-3.5), scoring (sections 4-10b), HTF adjustment (10c/10d) and
final assembly (11). -/
def generate_signalMain (df : Frame) (lookback_days : ℕ) (htf_df : Option Frame) : SignalResult :=
  let current_idx := df.length - 1
  let current_price := clAt df current_idx
  let kz := is_in_kill_zone (hourAt df current_idx)
  let rsKz :=
    if kz.1 then
      [Reason.insideKillZone kz.2.1] ++
        (if kz.2.1 = KZName.NEW_YORK_AM then [Reason.primeTimeNote] else [])
    else [Reason.outsideKillZones kz.2.2, Reason.lowProbabilityNote]
  let pd_zone := calculate_premium_discount_zone df lookback_days
  let rsPd := [Reason.priceInZone pd_zone.detailed_zone pd_zone.price_position]
  let rsP3 := [Reason.powerOf3 (get_power_of_3_phase (hourAt df current_idx))]
  let rsHtf := match htf_df with
    | none => [Reason.htfNotAvailable]
    | some hdf =>
        [Reason.htfBiasLine (get_htf_bias hdf).bias (get_htf_bias hdf).strength,
         Reason.htfBiasDetail (get_htf_bias hdf).bias (get_htf_bias hdf).strength]
  let conf := confluence_phase df lookback_days
  let adj := adjustedScores df lookback_days htf_df
  let swing_high := qmaxD ((lastN df lookback_days).map Bar.hi)
  let swing_low := qminD ((lastN df lookback_days).map Bar.lo)
  assembleResult adj.1 adj.2.1
    (rsKz ++ rsPd ++ rsP3 ++ rsHtf ++ conf.rs ++ adj.2.2) conf.zones
    current_price swing_low swing_high (calculate_ote_levels swing_high swing_low)

/-- The early-return dict of generate_signal for missing or short frames (its
python dict carries only signal / confidence / reasoning / active_zones /
entry_levels / current_price; the remaining fields of the Lean record are
filled with empty defaults). -/
def insufficientResult : SignalResult :=
  { signal := .NEUTRAL, confidence := 0, reasoning := [.insufficientData],
    active_zones := emptyZones, entry_levels := [], current_price := 0,
    ote_levels := ⟨0, 0, 0, 0⟩, bullish_score := 0, bearish_score := 0 }

/-- generate_signal(df, lookback_days, htf_df). -/
def generate_signal (df : Frame) (lookback_days : ℕ) (htf_df : Option Frame) : SignalResult :=
  if df.length < 50 then insufficientResult else generate_signalMain df lookback_days htf_df

/-- generate_signal including the df-is-None fast path. -/
def generate_signalOpt (df : Option Frame) (lookback_days : ℕ) (htf_df : Option Frame) :
    SignalResult :=
  match df with
  | none => insufficientResult
  | some f => generate_signal f lookback_days htf_df

/-- The returned dict of backtest_signal (minus the echoed date and
active_zones copies); the pct fields are PFloat since the entry price divides. -/
structure BacktestResult where
  signal : Direction
  confidence : ℤ
  reasoning : List Reason
  entry_price : ℚ
  end_price : ℚ
  price_change_pct : PFloat
  max_gain_pct : PFloat
  max_loss_pct : PFloat
  correct : Bool
deriving DecidableEq, Repr

def defaultBacktest : BacktestResult :=
  { signal := .NEUTRAL, confidence := 0, reasoning := [], entry_price := 0, end_price := 0,
    price_change_pct := .nan, max_gain_pct := .nan, max_loss_pct := .nan, correct := false }

/-- The record built by backtest_signal once both history gates passed:
the signal is generated on df.iloc[:target_idx+1] only, outcome fields come
from the `forward_periods` closes after the reference bar, and correct is
False unless a LONG/SHORT call beats the ±0.05 pct threshold. -/
def mkBacktest (df : Frame) (target_idx forward_periods : ℕ) : BacktestResult :=
  let signal_result := generate_signal (df.take (target_idx + 1)) 60 none
  let future_prices := ((df.drop (target_idx + 1)).take forward_periods).map Bar.cl
  let signal_price := clAt df target_idx
  let end_price := future_prices.getLastD 0
  let price_change_pct := (fdiv (end_price - signal_price) signal_price).mulPos 100
  { signal := signal_result.signal, confidence := signal_result.confidence,
    reasoning := signal_result.reasoning, entry_price := signal_price,
    end_price := end_price, price_change_pct := price_change_pct,
    max_gain_pct := (fdiv (qmaxD future_prices - signal_price) signal_price).mulPos 100,
    max_loss_pct := (fdiv (qminD future_prices - signal_price) signal_price).mulPos 100,
    correct := match signal_result.signal with
      | .LONG => price_change_pct.gtQ (5 / 100)
      | .SHORT => price_change_pct.ltQ (-(5 / 100))
      | .NEUTRAL => false }

/-- backtest_signal(df, target_date, forward_periods) after the target date
has been resolved to the nearest bar index (the pandas timezone handling and
nearest-timestamp lookup of lines 432-445 are outside the embedding: the
claims quantify over the resolved index).  Returns none exactly where the
python returns None. -/
def backtest_signal (df : Frame) (target_idx forward_periods : ℕ) : Option BacktestResult :=
  if target_idx < min 50 (df.length / 3) ∨ target_idx ≥ df.length - forward_periods then none
  else if (((df.drop (target_idx + 1)).take forward_periods).map Bar.cl).isEmpty then none
  else some (mkBacktest df target_idx forward_periods)

/- ===================== concrete frames used by the claims ===================== -/

def mkBar (hour : ℕ) (o h l c v : ℚ) : Bar := ⟨hour, o, h, l, c, v⟩

/-- 52-bar frame (hour 8 EST, NEW_YORK_AM kill zone, weight 1): 50 identical
bars, then a bar sweeping the range low at index 50, then a recovering close
at index 51.  Its only confluence contribution is one +6 bullish liquidity
sweep, the price sits in the DISCOUNT zone, so the pre-HTF scores are
bullish 6 / bearish 0 and the provisional direction is LONG. -/
def exBarStd : Bar := mkBar 8 993 1010 990 992 1000

def exBarSweep : Bar := mkBar 8 993 1010 980 992 1000

def exBarLast : Bar := mkBar 8 993 1010 990 993 1000

def exFrame : Frame := (List.replicate 50 exBarStd) ++ [exBarSweep, exBarLast]

/-- 21 monotonically falling higher-timeframe bars: get_htf_bias returns
BEARISH with strength 100. -/
def exHtf : Frame := (List.range 21).map (fun i =>
  mkBar 8 ((200 - (i : ℚ)) + 1 / 2) ((200 - (i : ℚ)) + 1) ((200 - (i : ℚ)) - 1)
    (200 - (i : ℚ)) 1000)

/-- 52-bar frame whose bar 29 closes at 0 and whose bar 30 recovers to 10, so
the displacement ratio at index 30 divides by a zero previous close. -/
def zBar : Bar := mkBar 8 10 11 9 10 5

def zZero : Bar := mkBar 8 10 11 0 0 5

def cf3 : Frame := (List.replicate 29 zBar) ++ [zZero] ++ (List.replicate 22 zBar)

/-- 11-bar frame realizing the scenario of claim C4 literally: bearish bar at
index 5, non-bearish bars at 6..9, and a +2% up-close at index 10. -/
def qBar : Bar := mkBar 8 100 101 99 100 5

def qBear : Bar := mkBar 8 100 101 97 98 5

def qUp : Bar := mkBar 8 100 103 99 102 5

def cf4 : Frame := (List.replicate 5 qBar) ++ [qBear] ++ (List.replicate 4 qBar) ++ [qUp]

/-- 31-bar frame with the C4 pattern shifted above the lookback horizon:
bearish bar at index 25 (a quiet 1% dip), non-bearish bars at 26..29, +2%
up-close at index 30, and no other displacement beyond index 20. -/
def qBear25 : Bar := mkBar 8 100 101 97 99 5

def wq : Frame := (List.replicate 25 qBar) ++ [qBear25] ++ (List.replicate 4 qBar) ++ [qUp]

/-- Small frames for the backtest witnesses: they agree on the first 7 bars
and differ afterwards. -/
def wBar : Bar := mkBar 8 100 101 99 100 500

def wAltBar : Bar := mkBar 8 100 102 98 101 700

def wf1 : Frame := List.replicate 12 wBar

def wf2 : Frame := (List.replicate 7 wBar) ++ (List.replicate 5 wAltBar)

/- ===================== claim theorems ===================== -/

/-- C6: for every Frame shorter than 50 bars (and for an absent frame),
generate_signal returns direction NEUTRAL, confidence 0 and the single-entry
reasoning list "Insufficient data", short-circuiting before any detector
runs. -/
theorem c6_insufficient (f : Frame) (lb : ℕ) (htf : Option Frame) (h : f.length < 50) :
    (generate_signal f lb htf).signal = Direction.NEUTRAL ∧
    (generate_signal f lb htf).confidence = 0 ∧
    (generate_signal f lb htf).reasoning = [Reason.insufficientData] ∧
    generate_signalOpt none lb htf = generate_signal f lb htf := by
  rw [generate_signal, if_pos h]
  exact ⟨rfl, rfl, rfl, rfl⟩

/-- C6 witness: the empty frame at the default lookback. -/
theorem c6_witness :
    (generate_signal [] 60 none).signal = Direction.NEUTRAL ∧
    (generate_signal [] 60 none).confidence = 0 ∧
    (generate_signal [] 60 none).reasoning = [Reason.insufficientData] ∧
    generate_signalOpt none 60 none = generate_signal [] 60 none :=
  c6_insufficient [] 60 none (by decide)

/-- C1 counterexample: on exFrame with the bearish higher-timeframe frame
exHtf, the provisional direction derived from the scores after the kill-zone
and premium/discount adjustments (section 10c) is LONG, but generate_signal
reports NEUTRAL: the −20% HTF penalty dropped the bullish score from 6 to
4.8 < 5 and the final direction IS re-derived from the post-adjustment
scores, flipping the output. -/
theorem c1_counterexample :
    (signalRule (confluence_phase exFrame 60).bull (confluence_phase exFrame 60).bear).1 =
      Direction.LONG ∧
    (generate_signal exFrame 60 (some exHtf)).signal = Direction.NEUTRAL := by
  constructor
  · decide
  · decide

/-- C1 amended: the direction reported by generate_signal always equals the
direction rule applied to the returned (post-HTF-adjustment) scores, i.e. the
final direction is re-derived from the adjusted scores rather than frozen at
the provisional one. -/
theorem c1_amended (f : Frame) (lb : ℕ) (htf : Option Frame) :
    (generate_signal f lb htf).signal =
      (signalRule (generate_signal f lb htf).bullish_score
        (generate_signal f lb htf).bearish_score).1 := by
  by_cases h : f.length < 50
  · rw [generate_signal, if_pos h]; decide
  · rw [generate_signal, if_neg h]; rfl

/-- C3 counterexample: in cf3 bar 29 closes at 0, and detect_order_blocks
treats the divide-by-zero displacement at index 30 as infinite — producing a
bullish order block of infinite strength — instead of treating the bar as a
zero-displacement bar (which would produce no order block). -/
theorem c3_counterexample :
    clAt cf3 29 = 0 ∧
    detect_order_blocks cf3 20 (15 / 1000) =
      [{ side := .bullish, start_idx := 29, end_idx := 30, obHigh := 11, obLow := 0,
         strength := PFloat.inf }] := by
  constructor
  · decide
  · decide

/-- C3 amended: the division is not guarded — with the numpy float semantics
a zero previous close and nonzero current close make the displacement ratio
+inf, which exceeds every (positive) threshold, so the bar is treated as a
maximal-displacement bar rather than a zero-displacement one; no exception is
raised and generate_signal stays total. -/
theorem c3_amended (f : Frame) (i : ℕ) (t : ℚ) (h0 : clAt f (i - 1) = 0)
    (hc : clAt f i ≠ 0) (ht : 0 < t) :
    obDisplacement f i = PFloat.inf ∧ (obDisplacement f i).gtQ t = true := by
  have he : obDisplacement f i = PFloat.inf := by
    unfold obDisplacement fdiv
    rw [h0, sub_zero, if_pos rfl, if_neg (abs_ne_zero.mpr hc), if_pos (abs_pos.mpr hc)]
  exact ⟨he, by rw [he]; rfl⟩

/-- C3 amended witness: the zero-close bar of cf3 at displacement index 30
with the default 1.5% threshold. -/
theorem c3_amended_witness :
    obDisplacement cf3 30 = PFloat.inf ∧ (obDisplacement cf3 30).gtQ (15 / 1000) = true :=
  c3_amended cf3 30 (15 / 1000) (by decide) (by decide) (by decide)

/-- C4 counterexample: cf4 satisfies the claimed scenario literally — bearish
bar at index 5, non-bearish bars at 6..9, close of bar 10 at least 2% above
the close of bar 9 — yet detect_order_blocks with the default lookback 20
returns NO order block at all (the displacement loop starts at index
lookback = 20, so index 10 is never examined), not exactly one anchored at 5. -/
theorem c4_counterexample :
    (clAt cf4 5 < opAt cf4 5) ∧
    (¬ clAt cf4 6 < opAt cf4 6) ∧ (¬ clAt cf4 7 < opAt cf4 7) ∧
    (¬ clAt cf4 8 < opAt cf4 8) ∧ (¬ clAt cf4 9 < opAt cf4 9) ∧
    clAt cf4 9 * (102 / 100) ≤ clAt cf4 10 ∧
    cf4.length = 11 ∧
    detect_order_blocks cf4 20 (15 / 1000) = [] := by
  refine ⟨by decide, by decide, by decide, by decide, by decide, by decide, by decide, by decide⟩

/-- Any successful backtest run is exactly the record built by mkBacktest. -/
theorem backtest_fields (df : Frame) (t fwd : ℕ) (r : BacktestResult)
    (h : backtest_signal df t fwd = some r) : r = mkBacktest df t fwd := by
  unfold backtest_signal at h
  split at h
  · exact absurd h (by simp)
  · split at h
    · exact absurd h (by simp)
    · injection h with h2
      exact h2.symm

/-- The correct flag of a backtest record as a function of its own embedded
signal and price change. -/
theorem mkBacktest_correct (df : Frame) (t fwd : ℕ) :
    (mkBacktest df t fwd).correct =
      (match (mkBacktest df t fwd).signal with
       | Direction.LONG => (mkBacktest df t fwd).price_change_pct.gtQ (5 / 100)
       | Direction.SHORT => (mkBacktest df t fwd).price_change_pct.ltQ (-(5 / 100))
       | Direction.NEUTRAL => false) := rfl

/-- C2: the embedded signal, confidence and reasoning of a backtest run
depend only on the bars up to and including the reference index — two frames
that agree on that prefix (same resolved index, same horizon) embed identical
signal fields, however their later bars differ. -/
theorem c2_no_lookahead (f1 f2 : Frame) (t fwd : ℕ) (r1 r2 : BacktestResult)
    (hpre : f1.take (t + 1) = f2.take (t + 1))
    (h1 : backtest_signal f1 t fwd = some r1)
    (h2 : backtest_signal f2 t fwd = some r2) :
    r1.signal = r2.signal ∧ r1.confidence = r2.confidence ∧ r1.reasoning = r2.reasoning := by
  obtain rfl := backtest_fields f1 t fwd r1 h1
  obtain rfl := backtest_fields f2 t fwd r2 h2
  have e1 : (mkBacktest f1 t fwd).signal = (generate_signal (f1.take (t + 1)) 60 none).signal := rfl
  have e2 : (mkBacktest f2 t fwd).signal = (generate_signal (f2.take (t + 1)) 60 none).signal := rfl
  have e3 : (mkBacktest f1 t fwd).confidence
      = (generate_signal (f1.take (t + 1)) 60 none).confidence := rfl
  have e4 : (mkBacktest f2 t fwd).confidence
      = (generate_signal (f2.take (t + 1)) 60 none).confidence := rfl
  have e5 : (mkBacktest f1 t fwd).reasoning
      = (generate_signal (f1.take (t + 1)) 60 none).reasoning := rfl
  have e6 : (mkBacktest f2 t fwd).reasoning
      = (generate_signal (f2.take (t + 1)) 60 none).reasoning := rfl
  rw [e1, e2, e3, e4, e5, e6, hpre]
  exact ⟨rfl, rfl, rfl⟩

/-- C2 witness: wf1 and wf2 agree on bars 0..6 and differ afterwards; both
runs at reference index 6 with horizon 2 embed the same signal fields. -/
theorem c2_witness :
    ((backtest_signal wf1 6 2).getD defaultBacktest).signal =
      ((backtest_signal wf2 6 2).getD defaultBacktest).signal ∧
    ((backtest_signal wf1 6 2).getD defaultBacktest).confidence =
      ((backtest_signal wf2 6 2).getD defaultBacktest).confidence ∧
    ((backtest_signal wf1 6 2).getD defaultBacktest).reasoning =
      ((backtest_signal wf2 6 2).getD defaultBacktest).reasoning :=
  c2_no_lookahead wf1 wf2 6 2
    ((backtest_signal wf1 6 2).getD defaultBacktest)
    ((backtest_signal wf2 6 2).getD defaultBacktest)
    (by decide) rfl rfl

/-- C7: for every backtest run that produces a result, a LONG call is correct
exactly when the realized percent change exceeds +0.05 and a SHORT call
exactly when it is below −0.05; at entry 100 an end price of 100.06 (+0.06%)
clears the threshold and an end price of 100.04 (+0.04%) does not. -/
theorem c7_correct_rule (f : Frame) (t fwd : ℕ) (r : BacktestResult)
    (h : backtest_signal f t fwd = some r) :
    (r.signal = Direction.LONG → r.correct = r.price_change_pct.gtQ (5 / 100)) ∧
    (r.signal = Direction.SHORT → r.correct = r.price_change_pct.ltQ (-(5 / 100))) ∧
    ((fdiv ((5003 / 50 : ℚ) - 100) 100).mulPos 100).gtQ (5 / 100) = true ∧
    ((fdiv ((2501 / 25 : ℚ) - 100) 100).mulPos 100).gtQ (5 / 100) = false := by
  obtain rfl := backtest_fields f t fwd r h
  refine ⟨?_, ?_, by decide, by decide⟩
  · intro hs
    rw [mkBacktest_correct, hs]
  · intro hs
    rw [mkBacktest_correct, hs]

/-- C7 witness: the run of wf1 at reference index 6 with horizon 2. -/
theorem c7_witness :
    (((backtest_signal wf1 6 2).getD defaultBacktest).signal = Direction.LONG →
      ((backtest_signal wf1 6 2).getD defaultBacktest).correct =
        ((backtest_signal wf1 6 2).getD defaultBacktest).price_change_pct.gtQ (5 / 100)) ∧
    (((backtest_signal wf1 6 2).getD defaultBacktest).signal = Direction.SHORT →
      ((backtest_signal wf1 6 2).getD defaultBacktest).correct =
        ((backtest_signal wf1 6 2).getD defaultBacktest).price_change_pct.ltQ (-(5 / 100))) ∧
    ((fdiv ((5003 / 50 : ℚ) - 100) 100).mulPos 100).gtQ (5 / 100) = true ∧
    ((fdiv ((2501 / 25 : ℚ) - 100) 100).mulPos 100).gtQ (5 / 100) = false :=
  c7_correct_rule wf1 6 2 ((backtest_signal wf1 6 2).getD defaultBacktest) rfl

/-- C10: a backtest result whose embedded signal is NEUTRAL always carries
correct = false (the flag is initialized False and only ever set for LONG or
SHORT), not an absent or third value. -/
theorem c10_neutral_correct (f : Frame) (t fwd : ℕ) (r : BacktestResult)
    (h : backtest_signal f t fwd = some r) (hs : r.signal = Direction.NEUTRAL) :
    r.correct = false := by
  obtain rfl := backtest_fields f t fwd r h
  rw [mkBacktest_correct, hs]

/-- C10 witness: the wf1 run at index 6 embeds a NEUTRAL signal and reports
correct = false. -/
theorem c10_witness : ((backtest_signal wf1 6 2).getD defaultBacktest).correct = false :=
  c10_neutral_correct wf1 6 2 ((backtest_signal wf1 6 2).getD defaultBacktest) rfl (by decide)

/-- Shape of the entry_levels dict for each direction: empty exactly for
NEUTRAL, otherwise exactly the four keys in insertion order. -/
theorem mkEntryLevels_spec (d : Direction) (z : ActiveZones) (p sl sh : ℚ) :
    (d = Direction.NEUTRAL ↔ mkEntryLevels d z p sl sh = []) ∧
    (d ≠ Direction.NEUTRAL →
      (mkEntryLevels d z p sl sh).map Prod.fst =
        ["entry", "stop_loss", "take_profit1", "take_profit2"]) := by
  cases d with
  | LONG =>
      unfold mkEntryLevels
      cases z.bullish_ob with
      | nil => exact ⟨by simp, fun _ => by simp⟩
      | cons ob tl => exact ⟨by simp, fun _ => by simp⟩
  | SHORT =>
      unfold mkEntryLevels
      cases z.bearish_ob with
      | nil => exact ⟨by simp, fun _ => by simp⟩
      | cons ob tl => exact ⟨by simp, fun _ => by simp⟩
  | NEUTRAL => exact ⟨by simp [mkEntryLevels], fun hne => absurd rfl hne⟩

/-- C9: entry_levels is nonempty iff the signal is LONG or SHORT, and then it
carries exactly the keys entry, stop_loss, take_profit1, take_profit2; for
NEUTRAL (including the short-frame fast path) it is the empty mapping. -/
theorem c9_entry_levels (f : Frame) (lb : ℕ) (htf : Option Frame) :
    ((generate_signal f lb htf).signal = Direction.NEUTRAL ↔
      (generate_signal f lb htf).entry_levels = []) ∧
    ((generate_signal f lb htf).signal ≠ Direction.NEUTRAL →
      (generate_signal f lb htf).entry_levels.map Prod.fst =
        ["entry", "stop_loss", "take_profit1", "take_profit2"]) := by
  by_cases h : f.length < 50
  · rw [generate_signal, if_pos h]
    exact ⟨by simp [insufficientResult], fun hne => absurd rfl hne⟩
  · rw [generate_signal, if_neg h]
    exact mkEntryLevels_spec
      (signalRule (adjustedScores f lb htf).1 (adjustedScores f lb htf).2.1).1
      (confluence_phase f lb).zones
      (clAt f (f.length - 1))
      (qminD ((lastN f lb).map Bar.lo))
      (qmaxD ((lastN f lb).map Bar.hi))

/-- C9 witness: exFrame without a higher-timeframe frame yields a LONG signal
and the four entry-level keys. -/
theorem c9_witness :
    (generate_signal exFrame 60 none).entry_levels.map Prod.fst =
      ["entry", "stop_loss", "take_profit1", "take_profit2"] :=
  (c9_entry_levels exFrame 60 none).2 (by decide)

/- ===================== C5: confidence mapping ===================== -/

/-- Python int() truncation agrees with floor on nonnegative rationals. -/
theorem pyInt_eq_floor (q : ℚ) (h : 0 ≤ q) : pyInt q = ⌊q⌋ := by
  rw [Rat.floor_def]
  exact Int.tdiv_eq_ediv (Rat.num_nonneg.mpr h) (Int.natCast_nonneg _)

theorem foldl_preserves {α : Type} (P : ScAcc → Prop) (step : ScAcc → α → ScAcc)
    (hstep : ∀ st x, P st → P (step st x)) :
    ∀ (l : List α) (st : ScAcc), P st → P (l.foldl step st)
  | [], _, h => h
  | x :: xs, st, h => foldl_preserves P step hstep xs (step st x) (hstep st x h)

theorem chochStep_nn (st : ScAcc) (c : Choch) (h : 0 ≤ st.bull ∧ 0 ≤ st.bear) :
    0 ≤ (chochStep st c).bull ∧ 0 ≤ (chochStep st c).bear := by
  unfold chochStep
  split
  · exact ⟨by show (0 : ℚ) ≤ st.bull + 10; linarith [h.1], h.2⟩
  · exact ⟨h.1, by show (0 : ℚ) ≤ st.bear + 10; linarith [h.2]⟩

theorem obBullStep_nn (at_ote in_kz : Bool) (price : ℚ) (obs : List OrderBlock) (st : ScAcc)
    (h : 0 ≤ st.bull ∧ 0 ≤ st.bear) :
    0 ≤ (obBullStep at_ote in_kz price obs st).bull ∧
    0 ≤ (obBullStep at_ote in_kz price obs st).bear := by
  unfold obBullStep
  split
  · split_ifs
    · exact ⟨by show (0 : ℚ) ≤ st.bull + 12; linarith [h.1], h.2⟩
    · exact ⟨by show (0 : ℚ) ≤ st.bull + 9; linarith [h.1], h.2⟩
    · exact ⟨by show (0 : ℚ) ≤ st.bull + 6; linarith [h.1], h.2⟩
  · exact h

theorem obBearStep_nn (at_ote in_kz : Bool) (price : ℚ) (obs : List OrderBlock) (st : ScAcc)
    (h : 0 ≤ st.bull ∧ 0 ≤ st.bear) :
    0 ≤ (obBearStep at_ote in_kz price obs st).bull ∧
    0 ≤ (obBearStep at_ote in_kz price obs st).bear := by
  unfold obBearStep
  split
  · split_ifs
    · exact ⟨h.1, by show (0 : ℚ) ≤ st.bear + 12; linarith [h.2]⟩
    · exact ⟨h.1, by show (0 : ℚ) ≤ st.bear + 9; linarith [h.2]⟩
    · exact ⟨h.1, by show (0 : ℚ) ≤ st.bear + 6; linarith [h.2]⟩
  · exact h

theorem fvgBullStep_nn (zone : PDKind) (price : ℚ) (fvgs : List FVG) (st : ScAcc)
    (h : 0 ≤ st.bull ∧ 0 ≤ st.bear) :
    0 ≤ (fvgBullStep zone price fvgs st).bull ∧ 0 ≤ (fvgBullStep zone price fvgs st).bear := by
  unfold fvgBullStep
  split
  · split_ifs
    · exact ⟨by show (0 : ℚ) ≤ st.bull + 9; linarith [h.1], h.2⟩
    · exact ⟨by show (0 : ℚ) ≤ st.bull + 4; linarith [h.1], h.2⟩
  · exact h

theorem fvgBearStep_nn (zone : PDKind) (price : ℚ) (fvgs : List FVG) (st : ScAcc)
    (h : 0 ≤ st.bull ∧ 0 ≤ st.bear) :
    0 ≤ (fvgBearStep zone price fvgs st).bull ∧ 0 ≤ (fvgBearStep zone price fvgs st).bear := by
  unfold fvgBearStep
  split
  · split_ifs
    · exact ⟨h.1, by show (0 : ℚ) ≤ st.bear + 9; linarith [h.2]⟩
    · exact ⟨h.1, by show (0 : ℚ) ≤ st.bear + 4; linarith [h.2]⟩
  · exact h

theorem sweepStep_nn (st : ScAcc) (sw : Sweep) (h : 0 ≤ st.bull ∧ 0 ≤ st.bear) :
    0 ≤ (sweepStep st sw).bull ∧ 0 ≤ (sweepStep st sw).bear := by
  unfold sweepStep
  split
  · exact ⟨by show (0 : ℚ) ≤ st.bull + 6; linarith [h.1], h.2⟩
  · exact ⟨h.1, by show (0 : ℚ) ≤ st.bear + 6; linarith [h.2]⟩

theorem bosStep_nn (nb nr : ℕ) (st : ScAcc) (h : 0 ≤ st.bull ∧ 0 ≤ st.bear) :
    0 ≤ (bosStep nb nr st).bull ∧ 0 ≤ (bosStep nb nr st).bear := by
  unfold bosStep
  split_ifs
  · exact ⟨by show (0 : ℚ) ≤ st.bull + 4; linarith [h.1], h.2⟩
  · exact ⟨h.1, by show (0 : ℚ) ≤ st.bear + 4; linarith [h.2]⟩
  · exact h

theorem dispStep_nn (st : ScAcc) (d : Displacement) (h : 0 ≤ st.bull ∧ 0 ≤ st.bear) :
    0 ≤ (dispStep st d).bull ∧ 0 ≤ (dispStep st d).bear := by
  unfold dispStep
  split
  · exact ⟨by show (0 : ℚ) ≤ st.bull + 7; linarith [h.1], h.2⟩
  · exact ⟨h.1, by show (0 : ℚ) ≤ st.bear + 7; linarith [h.2]⟩

theorem kzStep_nn (w : ℚ) (st : ScAcc) (hw : 0 ≤ w) (h : 0 ≤ st.bull ∧ 0 ≤ st.bear) :
    0 ≤ (kzStep w st).bull ∧ 0 ≤ (kzStep w st).bear :=
  ⟨mul_nonneg h.1 hw, mul_nonneg h.2 hw⟩

theorem premStep_nn (zone : PDKind) (st : ScAcc) (h : 0 ≤ st.bull ∧ 0 ≤ st.bear) :
    0 ≤ (premStep zone st).bull ∧ 0 ≤ (premStep zone st).bear := by
  unfold premStep
  split_ifs
  · exact ⟨by show (0 : ℚ) ≤ st.bull - st.bull * (3 / 10); linarith [h.1], h.2⟩
  · exact h

theorem discStep_nn (zone : PDKind) (st : ScAcc) (h : 0 ≤ st.bull ∧ 0 ≤ st.bear) :
    0 ≤ (discStep zone st).bull ∧ 0 ≤ (discStep zone st).bear := by
  unfold discStep
  split_ifs
  · exact ⟨h.1, by show (0 : ℚ) ≤ st.bear - st.bear * (3 / 10); linarith [h.2]⟩
  · exact h

theorem kz_weight_nonneg (hr : ℕ) : 0 ≤ (is_in_kill_zone hr).2.2 := by
  unfold is_in_kill_zone
  split_ifs <;> decide

/-- Both scores out of the confluence phase are nonnegative. -/
theorem confluence_nonneg (df : Frame) (lb : ℕ) :
    0 ≤ (confluence_phase df lb).bull ∧ 0 ≤ (confluence_phase df lb).bear := by
  unfold confluence_phase
  exact discStep_nn _ _ (premStep_nn _ _ (kzStep_nn _ _ (kz_weight_nonneg _)
    (foldl_preserves _ dispStep dispStep_nn _ _ (bosStep_nn _ _ _
      (foldl_preserves _ sweepStep sweepStep_nn _ _ (fvgBearStep_nn _ _ _ _
        (fvgBullStep_nn _ _ _ _ (obBearStep_nn _ _ _ _ _ (obBullStep_nn _ _ _ _ _
          (foldl_preserves _ chochStep chochStep_nn _ _ ⟨le_refl 0, le_refl 0⟩))))))))))

theorem htfAdjust_nn (prov : Direction) (bias : HtfBiasKind) (bull bear : ℚ)
    (hb : 0 ≤ bull) (ha : 0 ≤ bear) :
    0 ≤ (htfAdjust prov bias bull bear).1 ∧ 0 ≤ (htfAdjust prov bias bull bear).2.1 := by
  cases prov <;> cases bias <;>
    exact ⟨by show (0 : ℚ) ≤ _; dsimp only [htfAdjust]; linarith,
           by show (0 : ℚ) ≤ _; dsimp only [htfAdjust]; linarith⟩

/-- Both post-HTF-adjustment scores are nonnegative. -/
theorem adjusted_nonneg (df : Frame) (lb : ℕ) (htf : Option Frame) :
    0 ≤ (adjustedScores df lb htf).1 ∧ 0 ≤ (adjustedScores df lb htf).2.1 := by
  obtain ⟨hb, ha⟩ := confluence_nonneg df lb
  cases htf with
  | none => exact ⟨hb, ha⟩
  | some hdf => exact htfAdjust_nn _ _ _ _ hb ha

theorem confTiers_eq_spec (s : ℚ) (h : 0 ≤ s) : confTiers s = confTiersSpec s := by
  unfold confTiers confTiersSpec
  split_ifs with h1 h2 h3
  · rw [pyInt_eq_floor _ (by linarith)]
  · rw [pyInt_eq_floor _ (mul_nonneg (by linarith) (by norm_num))]
  · rw [pyInt_eq_floor _ (mul_nonneg (by linarith) (by norm_num))]
  · rw [pyInt_eq_floor _ (mul_nonneg h (by norm_num))]

theorem confTiers_le_100 (s : ℚ) : confTiers s ≤ 100 := by
  unfold confTiers
  split_ifs with h1 h2 h3
  · exact min_le_left _ _
  · rw [pyInt_eq_floor _ (mul_nonneg (by linarith) (by norm_num))]
    have h4 : ⌊(s - 13) * (5 / 2)⌋ < (20 : ℤ) := by
      rw [Int.floor_lt]
      push_cast
      linarith
    linarith
  · rw [pyInt_eq_floor _ (mul_nonneg (by linarith) (by norm_num))]
    have h4 : ⌊(s - 6) * 5⌋ < (35 : ℤ) := by
      rw [Int.floor_lt]
      push_cast
      linarith
    linarith
  · exact (min_le_left _ _).trans (by norm_num)

/-- The four confidence tiers of the specification. -/
def tierIdx (s : ℚ) : ℕ :=
  if s < 6 then 0 else if s < 13 then 1 else if s < 21 then 2 else 3

theorem confTiersSpec_mono (a b : ℚ) (hab : a ≤ b) (ht : tierIdx a = tierIdx b) :
    confTiersSpec a ≤ confTiersSpec b := by
  have hib : ∀ x y : ℚ, x ≤ y → ⌊x⌋ ≤ ⌊y⌋ := fun x y hxy => Int.floor_le_floor hxy
  unfold tierIdx at ht
  unfold confTiersSpec
  rcases lt_or_ge a 6 with h1 | h1
  · rw [if_pos h1] at ht
    have hb : b < 6 := by
      by_contra hc
      rw [if_neg hc] at ht
      split_ifs at ht <;> omega
    rw [if_neg (show ¬a ≥ 21 by linarith), if_neg (show ¬a ≥ 13 by linarith),
        if_neg (show ¬a ≥ 6 by linarith), if_neg (show ¬b ≥ 21 by linarith),
        if_neg (show ¬b ≥ 13 by linarith), if_neg (show ¬b ≥ 6 by linarith)]
    exact min_le_min le_rfl (hib _ _ (by linarith))
  · rcases lt_or_ge a 13 with h2 | h2
    · rw [if_neg (show ¬a < 6 by linarith), if_pos h2] at ht
      have hb : 6 ≤ b ∧ b < 13 := by
        constructor
        · by_contra hc
          rw [if_pos (show b < 6 by linarith)] at ht
          omega
        · by_contra hc
          rw [if_neg (show ¬b < 6 by linarith), if_neg hc] at ht
          split_ifs at ht <;> omega
      rw [if_neg (show ¬a ≥ 21 by linarith), if_neg (show ¬a ≥ 13 by linarith),
          if_pos (show a ≥ 6 by linarith), if_neg (show ¬b ≥ 21 by linarith),
          if_neg (show ¬b ≥ 13 by linarith), if_pos (show b ≥ 6 by linarith)]
      have hf : ⌊(a - 6) * 5⌋ ≤ ⌊(b - 6) * 5⌋ := hib _ _ (by linarith)
      omega
    · rcases lt_or_ge a 21 with h3 | h3
      · rw [if_neg (show ¬a < 6 by linarith), if_neg (show ¬a < 13 by linarith),
            if_pos h3] at ht
        have hb : 13 ≤ b ∧ b < 21 := by
          constructor
          · by_contra hc
            rw [if_neg (show ¬b < 6 by linarith), if_pos (show b < 13 by linarith)] at ht
            omega
          · by_contra hc
            rw [if_neg (show ¬b < 6 by linarith), if_neg (show ¬b < 13 by linarith),
                if_neg hc] at ht
            omega
        rw [if_neg (show ¬a ≥ 21 by linarith), if_pos (show a ≥ 13 by linarith),
            if_neg (show ¬b ≥ 21 by linarith), if_pos (show b ≥ 13 by linarith)]
        have hf : ⌊(a - 13) * (5 / 2)⌋ ≤ ⌊(b - 13) * (5 / 2)⌋ := hib _ _ (by linarith)
        omega
      · rw [if_pos (show a ≥ 21 by linarith), if_pos (show b ≥ 21 by linarith)]
        exact min_le_min le_rfl (by
          have hf : ⌊a - 21⌋ ≤ ⌊b - 21⌋ := hib _ _ (by linarith)
          omega)

/-- The winning adjusted score as the specification defines it. -/
def winningScore (r : SignalResult) : ℚ :=
  match r.signal with
  | .LONG => r.bullish_score
  | .SHORT => r.bearish_score
  | .NEUTRAL => 0

theorem rule_winning (b a : ℚ) (hb : 0 ≤ b) (ha : 0 ≤ a) :
    confTiers (signalRule b a).2 =
      confTiersSpec (match (signalRule b a).1 with
        | Direction.LONG => b
        | Direction.SHORT => a
        | Direction.NEUTRAL => 0) := by
  unfold signalRule
  split_ifs
  · exact confTiers_eq_spec b hb
  · exact confTiers_eq_spec a ha
  · exact confTiers_eq_spec 0 le_rfl

/-- C5: the reported confidence equals the specified piecewise (floor-based)
mapping of the winning adjusted score (the winning side's score for
LONG/SHORT, 0 for NEUTRAL); it never exceeds 100 and the mapping is monotone
non-decreasing within each tier. -/
theorem c5_confidence (f : Frame) (htf : Option Frame) (h : 50 ≤ f.length) :
    (generate_signal f 60 htf).confidence =
      confTiersSpec (winningScore (generate_signal f 60 htf)) ∧
    (generate_signal f 60 htf).confidence ≤ 100 ∧
    (∀ a b : ℚ, a ≤ b → tierIdx a = tierIdx b → confTiersSpec a ≤ confTiersSpec b) := by
  rw [generate_signal, if_neg (not_lt.mpr h)]
  obtain ⟨hb, ha⟩ := adjusted_nonneg f 60 htf
  refine ⟨?_, ?_, confTiersSpec_mono⟩
  · have e1 : (generate_signalMain f 60 htf).confidence =
        confTiers (signalRule (adjustedScores f 60 htf).1 (adjustedScores f 60 htf).2.1).2 := rfl
    have e2 : winningScore (generate_signalMain f 60 htf) =
        (match (signalRule (adjustedScores f 60 htf).1 (adjustedScores f 60 htf).2.1).1 with
         | Direction.LONG => (adjustedScores f 60 htf).1
         | Direction.SHORT => (adjustedScores f 60 htf).2.1
         | Direction.NEUTRAL => 0) := rfl
    rw [e1, e2]
    exact rule_winning _ _ hb ha
  · have e1 : (generate_signalMain f 60 htf).confidence =
        confTiers (signalRule (adjustedScores f 60 htf).1 (adjustedScores f 60 htf).2.1).2 := rfl
    rw [e1]
    exact confTiers_le_100 _

/-- C5 witness: a flat 50-bar frame. -/
theorem c5_witness :
    (generate_signal (List.replicate 50 wBar) 60 none).confidence =
      confTiersSpec (winningScore (generate_signal (List.replicate 50 wBar) 60 none)) ∧
    (generate_signal (List.replicate 50 wBar) 60 none).confidence ≤ 100 ∧
    (∀ a b : ℚ, a ≤ b → tierIdx a = tierIdx b → confTiersSpec a ≤ confTiersSpec b) :=
  c5_confidence (List.replicate 50 wBar) none (by decide)

/- ===================== C8: session liquidity priority ===================== -/

/-- Running session levels accumulated over a list of bars. -/
def levelsOver (st : Levels) (bars : List Bar) : Levels :=
  bars.foldl (fun lv b => updLevels lv b.hi b.lo) st

theorem sess_asian (l : List Bar) (st : SessionLevels) :
    (l.foldl sessionStep st).asian =
      levelsOver st.asian (l.filter (fun b => decide (19 ≤ b.hour ∧ b.hour ≤ 23))) := by
  induction l generalizing st with
  | nil => rfl
  | cons b tl ih =>
      rw [List.foldl_cons, ih, List.filter_cons]
      by_cases h1 : 19 ≤ b.hour ∧ b.hour ≤ 23
      · rw [if_pos (decide_eq_true h1)]
        rw [levelsOver, levelsOver, List.foldl_cons]
        have e : (sessionStep st b).asian = updLevels st.asian b.hi b.lo := by
          unfold sessionStep
          rw [if_pos h1]
        rw [e]
      · rw [if_neg (by simp [h1])]
        have e : (sessionStep st b).asian = st.asian := by
          unfold sessionStep
          rw [if_neg h1]
          split_ifs <;> rfl
        rw [e]

theorem sess_london (l : List Bar) (st : SessionLevels) :
    (l.foldl sessionStep st).london =
      levelsOver st.london (l.filter (fun b => decide (2 ≤ b.hour ∧ b.hour < 10))) := by
  induction l generalizing st with
  | nil => rfl
  | cons b tl ih =>
      rw [List.foldl_cons, ih, List.filter_cons]
      by_cases h1 : 19 ≤ b.hour ∧ b.hour ≤ 23
      · rw [if_neg (by simp only [decide_eq_true_eq]; omega)]
        have e : (sessionStep st b).london = st.london := by
          unfold sessionStep
          rw [if_pos h1]
        rw [e]
      · by_cases h2 : 2 ≤ b.hour ∧ b.hour < 10
        · rw [if_pos (decide_eq_true h2)]
          rw [levelsOver, levelsOver, List.foldl_cons]
          have e : (sessionStep st b).london = updLevels st.london b.hi b.lo := by
            unfold sessionStep
            rw [if_neg h1, if_pos h2]
          rw [e]
        · rw [if_neg (by simp [h2])]
          have e : (sessionStep st b).london = st.london := by
            unfold sessionStep
            rw [if_neg h1, if_neg h2]
            split_ifs <;> rfl
          rw [e]

theorem sess_newyork (l : List Bar) (st : SessionLevels) :
    (l.foldl sessionStep st).newyork =
      levelsOver st.newyork (l.filter (fun b => decide (10 ≤ b.hour ∧ b.hour < 16))) := by
  induction l generalizing st with
  | nil => rfl
  | cons b tl ih =>
      rw [List.foldl_cons, ih, List.filter_cons]
      by_cases h1 : 19 ≤ b.hour ∧ b.hour ≤ 23
      · rw [if_neg (by simp only [decide_eq_true_eq]; omega)]
        have e : (sessionStep st b).newyork = st.newyork := by
          unfold sessionStep
          rw [if_pos h1]
        rw [e]
      · by_cases h2 : 2 ≤ b.hour ∧ b.hour < 10
        · rw [if_neg (by simp only [decide_eq_true_eq]; omega)]
          have e : (sessionStep st b).newyork = st.newyork := by
            unfold sessionStep
            rw [if_neg h1, if_pos h2]
          rw [e]
        · by_cases h3 : 7 ≤ b.hour ∧ b.hour < 16
          · rw [if_pos (decide_eq_true (by omega))]
            rw [levelsOver, levelsOver, List.foldl_cons]
            have e : (sessionStep st b).newyork = updLevels st.newyork b.hi b.lo := by
              unfold sessionStep
              rw [if_neg h1, if_neg h2, if_pos h3]
            rw [e]
          · rw [if_neg (by simp only [decide_eq_true_eq]; omega)]
            have e : (sessionStep st b).newyork = st.newyork := by
              unfold sessionStep
              rw [if_neg h1, if_neg h2, if_neg h3]
            rw [e]

/-- C8: detect_session_liquidity resolves the overlapping London/NewYork hour
ranges by first-match priority (Asian, then London, then NewYork): the London
levels accumulate exactly the bars with EST hour in [2,10) — including hours
7, 8, 9 — while the NewYork levels accumulate exactly the bars with hour in
[10,16), the NewYork range minus the London-claimed overlap. -/
theorem c8_sessions (f : Frame) :
    (detect_session_liquidity f).asian =
      levelsOver ⟨none, none⟩ (f.filter (fun b => decide (19 ≤ b.hour ∧ b.hour ≤ 23))) ∧
    (detect_session_liquidity f).london =
      levelsOver ⟨none, none⟩ (f.filter (fun b => decide (2 ≤ b.hour ∧ b.hour < 10))) ∧
    (detect_session_liquidity f).newyork =
      levelsOver ⟨none, none⟩ (f.filter (fun b => decide (10 ≤ b.hour ∧ b.hour < 16))) :=
  ⟨sess_asian f _, sess_london f _, sess_newyork f _⟩

/- ===================== C4 amended ===================== -/

theorem obAt_none (f : Frame) (lb : ℕ) (th : ℚ) (i : ℕ)
    (h : (obDisplacement f i).gtQ th = false) : obAt f lb th i = none := by
  unfold obAt
  rw [h]
  rfl

/-- C4 amended: the displacement loop of detect_order_blocks starts at the
lookback index, so the claimed pattern is visible only when the displacement
bar sits at an index ≥ lookback (20).  For a 31-bar frame whose bar 25 is
bearish, bars 26..29 are not bearish, bar 30 closes at least 2% above the
(positive) close of bar 29, and no other index ≥ 20 passes the 1.5%
displacement test, detect_order_blocks returns exactly one bullish order
block anchored at index 25 with that bar's low/high as the zone. -/
theorem c4_amended (f : Frame) (hlen : f.length = 31)
    (hquiet : ∀ i, i < 31 → 20 ≤ i → i ≠ 30 → (obDisplacement f i).gtQ (15 / 1000) = false)
    (hbear : clAt f 25 < opAt f 25)
    (hnon : ∀ j, j < 30 → 26 ≤ j → ¬clAt f j < opAt f j)
    (hpos : 0 < clAt f 29)
    (hup : clAt f 29 * (102 / 100) ≤ clAt f 30) :
    detect_order_blocks f 20 (15 / 1000) =
      [{ side := .bullish, start_idx := 25, end_idx := 30,
         obHigh := hiAt f 25, obLow := loAt f 25, strength := obDisplacement f 30 }] := by
  have hdelta : 0 < clAt f 30 - clAt f 29 := by linarith
  have hdisp : obDisplacement f 30 = PFloat.fin ((clAt f 30 - clAt f 29) / clAt f 29) := by
    unfold obDisplacement
    show fdiv (|clAt f 30 - clAt f 29|) (clAt f 29) = _
    unfold fdiv
    rw [if_neg (ne_of_gt hpos), abs_of_pos hdelta]
  have hgt : (obDisplacement f 30).gtQ (15 / 1000) = true := by
    rw [hdisp]
    show decide ((clAt f 30 - clAt f 29) / clAt f 29 > 15 / 1000) = true
    rw [decide_eq_true_eq]
    rw [gt_iff_lt, lt_div_iff₀ hpos]
    linarith
  have hcc : clAt f 30 > clAt f (30 - 1) := by
    show clAt f 30 > clAt f 29
    linarith
  have hscan : (scanIdxs 30 20).find? (fun j => decide (clAt f j < opAt f j)) = some 25 := by
    have e : scanIdxs 30 20 =
        [29, 28, 27, 26, 25, 24, 23, 22, 21, 20, 19, 18, 17, 16, 15, 14, 13, 12, 11] := by
      decide
    rw [e]
    rw [List.find?_cons_of_neg _ (by simp [hnon 29 (by omega) (by omega)]),
        List.find?_cons_of_neg _ (by simp [hnon 28 (by omega) (by omega)]),
        List.find?_cons_of_neg _ (by simp [hnon 27 (by omega) (by omega)]),
        List.find?_cons_of_neg _ (by simp [hnon 26 (by omega) (by omega)]),
        List.find?_cons_of_pos _ (by simp [hbear])]
  have h30 : obAt f 20 (15 / 1000) 30 =
      some { side := .bullish, start_idx := 25, end_idx := 30,
             obHigh := hiAt f 25, obLow := loAt f 25, strength := obDisplacement f 30 } := by
    unfold obAt
    rw [hgt, if_pos rfl, if_pos hcc, hscan]
    rfl
  have hn : ∀ i, i < 31 → 20 ≤ i → i ≠ 30 → obAt f 20 (15 / 1000) i = none :=
    fun i hi1 hi2 hi3 => obAt_none f 20 (15 / 1000) i (hquiet i hi1 hi2 hi3)
  unfold detect_order_blocks
  rw [hlen]
  show (List.range' 20 11).filterMap (obAt f 20 (15 / 1000)) = _
  rw [show List.range' 20 11 = [20, 21, 22, 23, 24, 25, 26, 27, 28, 29, 30] by decide]
  simp only [List.filterMap_cons, List.filterMap_nil,
    hn 20 (by omega) (by omega) (by omega), hn 21 (by omega) (by omega) (by omega),
    hn 22 (by omega) (by omega) (by omega), hn 23 (by omega) (by omega) (by omega),
    hn 24 (by omega) (by omega) (by omega), hn 25 (by omega) (by omega) (by omega),
    hn 26 (by omega) (by omega) (by omega), hn 27 (by omega) (by omega) (by omega),
    hn 28 (by omega) (by omega) (by omega), hn 29 (by omega) (by omega) (by omega),
    h30]

/-- C4 amended witness: the 31-bar frame wq. -/
theorem c4_amended_witness :
    detect_order_blocks wq 20 (15 / 1000) =
      [{ side := .bullish, start_idx := 25, end_idx := 30,
         obHigh := hiAt wq 25, obLow := loAt wq 25, strength := obDisplacement wq 30 }] :=
  c4_amended wq (by decide) (by decide) (by decide) (by decide) (by decide) (by decide)

end ICT
